import Mathlib

/-
Verification development for the Temi_Web_Dashboard repository.

Shallow embedding of:
  * the violation debouncer
    (temi_control_app_v1.1/violation_debouncer.py, class ViolationDebouncer),
  * the aggregate clamp stage
    (temi_control_app_v1.1/app.py, process_yolo_topic._clamp_violations),
  * the patrol state machine and its run loop
    (Temi-Control-App-Production/linux/app/patrol_manager.py,
     classes PatrolManager and MultiRobotPatrolManager),
  * the per-waypoint detection gate
    (patrol_manager.py, PatrolManager._run_detection_gate and
     PatrolManager._execute_violation_action).

Python floats are modelled as rationals; wall-clock time is modelled as a
rational timestamp passed explicitly (the debouncer) or as half-second poll
ticks (the detection gate and the patrol run loop, whose sleeps are all 0.5 s).
Threading is modelled by running the patrol loop as a sequential fuel-bounded
interpreter over an environment that says which arrival waits succeed; external
events that other threads could inject (pause, battery updates, goto-abort
events) are out of the traces considered here and the corresponding fields
simply keep their initial values, exactly as in a run in which those events do
not fire.
-/

attribute [local semireducible] Rat.add Rat.sub Rat.mul Rat.inv

namespace Temi

/-! ## Violation debouncer (violation_debouncer.py) -/

/-- One violation observation, as appended to the per-patrol deque in
`ViolationDebouncer.add_violation_observation`: timestamp, confidence,
violation type and waypoint index. -/
structure Obs where
  timestamp : ℚ
  confidence : ℚ
  vtype : String
  waypoint : Nat
deriving DecidableEq

/-- The debounce decision reasons returned by `add_violation_observation`.
Each constructor stands for one of the formatted reason strings of the code:
`lowConfidence` for "Low confidence: ...", `noViolations` for
"No violations in window", `singleObservation` for
"Single observation, need confirmation", `outlier` for
"Outlier detected (z-score: ...)" and `insufficientCount` for
"Insufficient violations in window (k/threshold)". -/
inductive DebounceReason
  | lowConfidence
  | noViolations
  | singleObservation
  | outlier
  | insufficientCount
deriving DecidableEq

/-- The configuration dictionary of `ViolationDebouncer.__init__`. -/
structure DebCfg where
  debounceWindowSeconds : ℚ
  violationThreshold : Nat
  smoothingFactor : ℚ
  outlierThreshold : ℚ
  minConfidenceScore : ℚ
deriving DecidableEq

/-- The default configuration values from `ViolationDebouncer.__init__`. -/
def defaultCfg : DebCfg :=
  { debounceWindowSeconds := 10
    violationThreshold := 3
    smoothingFactor := 3 / 10
    outlierThreshold := 3
    minConfidenceScore := 1 / 2 }

/-- Arithmetic mean of a list of rationals (`statistics.mean`). -/
def mean (l : List ℚ) : ℚ := l.sum / (l.length : ℚ)

/-- Sample variance with Bessel correction, i.e. the square of
`statistics.stdev`.  The code never divides by zero here because it only
computes the standard deviation for windows with more than one entry. -/
def sampleVariance (l : List ℚ) : ℚ :=
  ((l.map fun x => (x - mean l) ^ 2).sum) / ((l.length : ℚ) - 1)

/-- `ViolationDebouncer.add_violation_observation`, as a pure function of the
configuration, the current per-patrol window (deque) content, the current
wall-clock time `now` and the observation data.  Returns the
`(should_report, reason)` pair together with the window content after the
call.  The z-score test `abs ((c - mean) / stdev) > outlier_threshold` of the
code is encoded without square roots as
`(c - mean) ^ 2 > outlier_threshold ^ 2 * variance`, which is equivalent
whenever the standard deviation is positive (both sides are nonnegative), and
the guard `stdev > 0` is equivalently `variance > 0`. -/
def addViolationObservation (cfg : DebCfg) (hist : List Obs) (now : ℚ)
    (waypointIndex : Nat) (vtype : String) (confidence : ℚ) (ts : ℚ) :
    (Bool × Option DebounceReason) × List Obs :=
  if confidence < cfg.minConfidenceScore then
    ((false, some DebounceReason.lowConfidence), hist)
  else
    let hist1 := hist ++ [⟨ts, confidence, vtype, waypointIndex⟩]
    let windowStart := now - cfg.debounceWindowSeconds
    let hist2 := hist1.dropWhile fun o => o.timestamp < windowStart
    if hist2.length = 0 then ((false, some DebounceReason.noViolations), hist2)
    else if hist2.length = 1 then
      ((false, some DebounceReason.singleObservation), hist2)
    else
      let confs := hist2.map Obs.confidence
      let m := mean confs
      let v := sampleVariance confs
      if 0 < v ∧ cfg.outlierThreshold ^ 2 * v < (confidence - m) ^ 2 then
        ((false, some DebounceReason.outlier), hist2)
      else if cfg.violationThreshold ≤ hist2.length then ((true, none), hist2)
      else ((false, some DebounceReason.insufficientCount), hist2)

/-! ## Aggregate clamp stage (app.py, process_yolo_topic._clamp_violations)

The raw totals arrive as integers here (`_safe_int` has already coerced the
payload values; the claims quantify over integer inputs). -/

/-- `_clamp_violations`: floors both totals at 0 and caps violations at the
people count. -/
def clampViolations (totalViolations totalPeople : ℤ) : ℤ × ℤ :=
  let p1 := if totalPeople < 0 then 0 else totalPeople
  let v1 := if totalViolations < 0 then 0 else totalViolations
  let v2 := if 0 ≤ p1 ∧ p1 < v1 then p1 else v1
  (v2, p1)

/-! ## Patrol state machine (patrol_manager.py)

The patrol loop of `PatrolManager._patrol_loop` is a worker thread that polls
every 0.5 s.  It is embedded as a sequential fuel-bounded interpreter.  The
environment `env : Nat → Bool` abstracts the arrival waits: the waits for an
arrival event are numbered globally in the order in which they happen, and
`env k` tells whether wait number `k` sees the arrival event before the
waypoint timeout elapses (`env k = false` is a timeout with no arrival).
Commands published over MQTT and events emitted through the callbacks are
recorded in an ordered log. -/

/-- `PatrolState` enum of patrol_manager.py. -/
inductive PState
  | idle
  | running
  | paused
  | stopped
  | waiting
  | lowBattery
  | error
deriving DecidableEq

/-- Observable events of one patrol: published movement commands
(`goto_waypoint`, `stop_movement`) and emitted callbacks
(`_emit_status_update`, `_emit_error`, `_emit_complete`).  A status event
records the state, waypoint index, waypoint total and loop counter fields of
the status dictionary built by `_emit_status_update`.  Peripheral display and
TTS commands of `_execute_waypoint_actions` are tracked separately by the
detection-gate model below and are not part of this log. -/
inductive Ev
  | goto (loc : String)
  | stopMovement
  | status (st : PState) (idx total loopNum : Nat)
  | errorEv (msg : String)
  | complete
deriving DecidableEq

/-- The error message emitted by `_wait_for_waypoint_completion` when the
arrival timeout has been exhausted after the maximal number of retries
(the code interpolates the waypoint name and retry count into it). -/
def failMsg : String := "failed to reach waypoint after retries"

/-- The error message emitted by `PatrolManager.start` on an empty route. -/
def noWaypointsMsg : String := "no waypoints in route"

/-- A route as read from the route dictionary: waypoint names in order, the
loop count (0 or negative means looping forever) and the return location
(empty string models a missing `return_location` key). -/
structure Route where
  waypoints : List String
  loopCount : Int
  returnLocation : String

/-- The mutable fields of a `PatrolManager` instance that the claims observe,
plus the event log and the global arrival-wait counter `attempt` used to
index the environment. -/
structure PM where
  state : PState
  currentWaypointIndex : Nat
  totalWaypoints : Nat
  stopRequested : Bool
  isPaused : Bool
  currentLoop : Nat
  loopCount : Int
  isInfiniteLoop : Bool
  returnAfterCurrent : Bool
  returnLocation : String
  waypoints : List String
  maxRetries : Nat
  threadSpawned : Bool
  attempt : Nat
  log : List Ev

/-- `PatrolManager.__init__`: the initial field values for a route, with
`maxRetries` the `waypoint_max_retries` setting and `homeBase` the
`home_base_location` setting (the fallback for a missing return location). -/
def initPM (route : Route) (maxRetries : Nat) (homeBase : String) : PM :=
  { state := PState.idle
    currentWaypointIndex := 0
    totalWaypoints := route.waypoints.length
    stopRequested := false
    isPaused := false
    currentLoop := 0
    loopCount := route.loopCount
    isInfiniteLoop := decide (route.loopCount ≤ 0)
    returnAfterCurrent := false
    returnLocation := if route.returnLocation = "" then homeBase
                      else route.returnLocation
    waypoints := route.waypoints
    maxRetries := maxRetries
    threadSpawned := false
    attempt := 0
    log := [] }

/-- `PatrolManager._emit_status_update`. -/
def emitStatus (pm : PM) : PM :=
  { pm with log := pm.log ++
      [Ev.status pm.state pm.currentWaypointIndex pm.totalWaypoints
        pm.currentLoop] }

/-- `PatrolManager.start`: refuses when not idle or when the route has no
waypoints (emitting the no-waypoints error), otherwise moves to Running,
resets the flags, spawns the patrol thread and emits a status update. -/
def PM.start (pm : PM) : Bool × PM :=
  if pm.state ≠ PState.idle then (false, pm)
  else if pm.totalWaypoints = 0 then
    (false, { pm with log := pm.log ++ [Ev.errorEv noWaypointsMsg] })
  else
    let pm :=
      { pm with state := PState.running, currentWaypointIndex := 0,
                stopRequested := false, isPaused := false,
                threadSpawned := true }
    (true, emitStatus pm)

/-- `PatrolManager.stop`: a no-op returning false when already idle or
stopped; otherwise requests the stop, moves to Stopped, publishes one
`stop_movement` command and emits a status update. -/
def PM.stop (pm : PM) : Bool × PM :=
  if pm.state = PState.idle ∨ pm.state = PState.stopped then (false, pm)
  else
    let pm :=
      { pm with stopRequested := true, state := PState.stopped,
                log := pm.log ++ [Ev.stopMovement] }
    (true, emitStatus pm)

/-- The wait-and-retry protocol of `PatrolManager._wait_for_waypoint_completion`
for one waypoint, under the environment abstraction: `remaining` is the number
of retries still allowed (initially `waypoint_max_retries`, i.e.
`remaining = max_retries - retry_count` for the retry counter of the code),
`att` the global index of the current arrival wait.  Returns the events
appended during the wait (one resent goto per retry, one error event if the
retries are exhausted), the next wait index and whether the robot arrived. -/
def waitAttempts (env : Nat → Bool) (nm : String) :
    Nat → Nat → List Ev × Nat × Bool
  | 0, att =>
    if env att then ([], att + 1, true)
    else ([Ev.errorEv failMsg], att + 1, false)
  | remaining + 1, att =>
    if env att then ([], att + 1, true)
    else
      let w := waitAttempts env nm remaining (att + 1)
      (Ev.goto nm :: w.1, w.2.1, w.2.2)

/-- `PatrolManager._return_to_location`: a goto to the configured return
location, skipped when no location is configured. -/
def returnToLocation (pm : PM) : PM :=
  if pm.returnLocation = "" then pm
  else { pm with log := pm.log ++ [Ev.goto pm.returnLocation] }

/-- One waypoint of the patrol loop body: `_execute_waypoint` (goto command,
state Waiting, status update) followed by `_wait_for_waypoint_completion`
(arrival wait with retries; on exhausted retries the error event is emitted
and the function returns early, skipping the waypoint actions).  The waypoint
actions themselves (TTS, display, dwell, detection gate) publish no goto,
stop, status, error or completion events and are therefore silent in this
log; the detection gate is modelled separately below.  A pending low-battery
return (`return_after_current`) issues the return goto and requests the
stop. -/
def waypointStep (env : Nat → Bool) (pm : PM) : PM :=
  let nm := pm.waypoints.getD pm.currentWaypointIndex ""
  let pm1 := emitStatus
    { pm with log := pm.log ++ [Ev.goto nm], state := PState.waiting }
  let w := waitAttempts env nm pm1.maxRetries pm1.attempt
  let pm2 := { pm1 with log := pm1.log ++ w.1, attempt := w.2.1 }
  if w.2.2 = false then pm2
  else if pm2.stopRequested = true then pm2
  else if pm2.returnAfterCurrent = true then
    { returnToLocation pm2 with stopRequested := true }
  else pm2

/-- The inner while loop of `_patrol_loop` over the waypoints of one loop
iteration: while not stopped and the index is in range, execute the waypoint,
advance the index and emit a status update.  The pause branch only delays
execution and is not part of the traces considered (is_paused stays false).
The fuel argument bounds the number of iterations; `totalWaypoints` is always
enough fuel for one full pass. -/
def innerLoop (env : Nat → Bool) : Nat → PM → PM
  | 0, pm => pm
  | fuel + 1, pm =>
    if pm.stopRequested = false ∧ pm.currentWaypointIndex < pm.totalWaypoints
    then
      let pm1 := waypointStep env pm
      let pm2 := emitStatus
        { pm1 with currentWaypointIndex := pm1.currentWaypointIndex + 1 }
      innerLoop env fuel pm2
    else pm

/-- The outer while loop of `_patrol_loop` over loop iterations: while
`keep_looping` and not stopped, reset the waypoint index, run all waypoints,
then (when not stopped) advance the loop counter and decide whether to keep
looping (always for an infinite route, otherwise while the counter has not
passed the configured loop count).  Returns whether the while loop exited by
its own condition within the given fuel, together with the final state. -/
def outerLoop (env : Nat → Bool) : Nat → Bool → PM → Bool × PM
  | 0, _, pm => (false, pm)
  | fuel + 1, keep, pm =>
    if keep = true ∧ pm.stopRequested = false then
      let pm1 := innerLoop env pm.totalWaypoints
        { pm with currentWaypointIndex := 0 }
      if pm1.stopRequested = false then
        let pm2 := { pm1 with currentLoop := pm1.currentLoop + 1 }
        let keep2 := pm2.isInfiniteLoop ||
          decide ((pm2.currentLoop : Int) ≤ pm2.loopCount)
        outerLoop env fuel keep2 pm2
      else outerLoop env fuel keep pm1
    else (true, pm)

/-- `PatrolManager._patrol_loop`: sets the loop counter to 1, runs the nested
loops, and on a natural exit with no stop requested sends the robot to the
return location, goes back to Idle and emits the completion event.  The first
component reports whether the while loop exited by its own condition
(`false` means the fuel ran out while the loop was still going). -/
def patrolLoop (env : Nat → Bool) (fuel : Nat) (pm : PM) : Bool × PM :=
  let r := outerLoop env fuel true { pm with currentLoop := 1 }
  if r.1 = true ∧ r.2.stopRequested = false then
    let pm1 := { returnToLocation r.2 with state := PState.idle }
    (true, { pm1 with log := pm1.log ++ [Ev.complete] })
  else r

/-- Outcome of starting a patrol and running its worker: whether `start`
succeeded, whether the run loop self-terminated within the fuel, and the
final instance state. -/
structure RunResult where
  started : Bool
  finished : Bool
  pm : PM

/-- `start()` followed by the patrol worker: the thread target `_patrol_loop`
runs exactly when `start` returned true. -/
def startAndRun (route : Route) (maxRetries : Nat) (homeBase : String)
    (env : Nat → Bool) (fuel : Nat) : RunResult :=
  let s := PM.start (initPM route maxRetries homeBase)
  if s.1 = true then
    let r := patrolLoop env fuel s.2
    ⟨true, r.1, r.2⟩
  else ⟨false, false, s.2⟩

/-- The `MultiRobotPatrolManager` registry: the set of robot ids with an
active `PatrolManager` (the keys of `self.patrols`) and the connection state
of each robot MQTT client. -/
structure Registry where
  active : List Nat
  connected : Nat → Bool

/-- `MultiRobotPatrolManager.start_patrol`: fails when a patrol is already
registered for the robot or when its client is not connected; otherwise
constructs a `PatrolManager` and calls `start`, registering the instance only
on success.  The third component is the constructed instance, when one was
constructed. -/
def startPatrol (reg : Registry) (robotId : Nat) (route : Route)
    (maxRetries : Nat) (homeBase : String) : Bool × Registry × Option PM :=
  if robotId ∈ reg.active then (false, reg, none)
  else if reg.connected robotId = false then (false, reg, none)
  else
    let s := PM.start (initPM route maxRetries homeBase)
    if s.1 = true then
      (true, { reg with active := robotId :: reg.active }, some s.2)
    else (false, reg, some s.2)

/-- Number of goto commands to a given location in a log. -/
def countGoto (log : List Ev) (nm : String) : Nat :=
  log.countP fun e => decide (e = Ev.goto nm)

/-- Number of `stop_movement` commands in a log. -/
def countStopMovement (log : List Ev) : Nat :=
  log.countP fun e => decide (e = Ev.stopMovement)

/-- The waypoint-index bound of the status updates: while the reported state
is Running or Waiting the reported index is at most the waypoint total. -/
def statusWithinBounds : Ev → Bool
  | Ev.status st idx total _ =>
    if st = PState.running ∨ st = PState.waiting then decide (idx ≤ total)
    else true
  | _ => true

/-! ## Detection gate (patrol_manager.py, _run_detection_gate)

The gate polls the YOLO snapshot every 0.5 s.  Time is modelled in poll
ticks: `env tick` is the `total_violations` count extracted from the snapshot
at tick number `tick`, `timeoutTicks` the detection timeout and `nvTicks` the
no-violation grace period, both in ticks.  The gate runs until either no
violations were seen for the grace period, or the timeout elapsed; the
cooperative stop flag is false in the traces considered. -/

/-- MQTT commands published by `_execute_violation_action` and
`_auto_close_webview`. -/
inductive Cmd
  | speakTts (msg : String)
  | showWebview (url : String)
  | playVideo (url : String)
  | closeWebview
deriving DecidableEq

/-- The waypoint dictionary keys read by the violation action; the empty
string models both a missing key and an empty value (both falsy under the
`or` chains of the code). -/
structure WaypointCfg where
  violationTtsMessage : String
  violationDisplayContent : String
  webviewCloseDelay : Int
deriving DecidableEq

/-- The settings read by the violation action and the webview auto-close. -/
structure GateSettings where
  violationTtsDefault : String
  violationWebviewUrl : String
  violationDisplayContentDefault : String
  webviewCloseDelaySeconds : Int
deriving DecidableEq

/-- Python `a or b` on strings: the left value unless it is falsy (empty). -/
def strOr (a b : String) : String := if a = "" then b else a

/-- `PatrolManager._auto_close_webview`: closes the webview after the
waypoint delay, falling back to the global setting; publishes nothing when
the effective delay is not positive. -/
def autoCloseCmds (closeDelay fallback : Int) : List Cmd :=
  let d := if closeDelay ≤ 0 then fallback else closeDelay
  if 0 < d then [Cmd.closeWebview] else []

/-- `PatrolManager._execute_violation_action`: executes the configured
response action and returns the result tag of the code (`none` models the
Python `None` result of the no-op paths) together with the published
commands.  `pubOk` models the boolean success result of the MQTT publish
calls (it only changes the returned tag, never the command set). -/
def execViolationAction (action : String) (wp : WaypointCfg)
    (st : GateSettings) (pubOk : Bool) : Option String × List Cmd :=
  if action = "" ∨ action = "none" then (none, [])
  else if action = "tts" then
    (some (if pubOk then "tts_ok" else "tts_failed"),
      [Cmd.speakTts (strOr wp.violationTtsMessage st.violationTtsDefault)])
  else if action = "webview" then
    let url := strOr (strOr wp.violationDisplayContent st.violationWebviewUrl)
      st.violationDisplayContentDefault
    if url = "" then (some "webview_skipped", [])
    else if pubOk then
      (some "webview_ok", Cmd.showWebview url ::
        autoCloseCmds wp.webviewCloseDelay st.webviewCloseDelaySeconds)
    else (some "webview_failed", [Cmd.showWebview url])
  else if action = "video" then
    let url := strOr (strOr wp.violationDisplayContent st.violationWebviewUrl)
      st.violationDisplayContentDefault
    if url = "" then (some "video_skipped", [])
    else (some (if pubOk then "video_ok" else "video_failed"),
      [Cmd.playVideo url])
  else (none, [])

/-- The loop-local state of one `_run_detection_gate` invocation.
`actionTaken`, `violationsSeen` and `noViolationStart` are the variables of
the code; `execTick` (the tick at which violation-action commands were
published, if any) and the `(tick, command)` log are instrumentation of the
published commands. -/
structure GateSt where
  actionTaken : Option String
  violationsSeen : Bool
  noViolationStart : Option Nat
  execTick : Option Nat
  cmds : List (Nat × Cmd)
deriving DecidableEq

/-- The gate state at the start of a gate invocation. -/
def initGateSt : GateSt :=
  { actionTaken := none, violationsSeen := false, noViolationStart := none,
    execTick := none, cmds := [] }

/-- One iteration of the polling loop of `_run_detection_gate`: reads the
violation count, on a violation resets the grace timer and executes the
violation action if none was taken yet, otherwise starts or checks the grace
timer; then checks the overall timeout.  Returns the new state and whether
the loop continues to the next tick. -/
def gateIter (env : Nat → Nat) (action : String) (wp : WaypointCfg)
    (st : GateSettings) (pubOk : Bool) (timeoutTicks : Nat) (nvTicks : Int)
    (tick : Nat) (g : GateSt) : GateSt × Bool :=
  if 0 < env tick then
    let g1 := { g with violationsSeen := true, noViolationStart := none }
    let g2 :=
      if g1.actionTaken = none then
        let r := execViolationAction action wp st pubOk
        { g1 with actionTaken := r.1,
                  cmds := g1.cmds ++ r.2.map fun c => (tick, c),
                  execTick := if r.2 = [] then g1.execTick else some tick }
      else g1
    (g2, decide (tick < timeoutTicks))
  else
    let nvs := g.noViolationStart.getD tick
    let g2 := { g with noViolationStart := some nvs }
    if nvTicks ≤ 0 ∨ nvTicks ≤ (tick : Int) - (nvs : Int) then (g2, false)
    else (g2, decide (tick < timeoutTicks))

/-- The polling loop of `_run_detection_gate`, fuel-bounded. -/
def gateLoop (env : Nat → Nat) (action : String) (wp : WaypointCfg)
    (st : GateSettings) (pubOk : Bool) (timeoutTicks : Nat) (nvTicks : Int) :
    Nat → Nat → GateSt → GateSt
  | 0, _, g => g
  | fuel + 1, tick, g =>
    let r := gateIter env action wp st pubOk timeoutTicks nvTicks tick g
    if r.2 = true then
      gateLoop env action wp st pubOk timeoutTicks nvTicks fuel (tick + 1) r.1
    else r.1

/-- One full gate invocation starting at tick 0 in the initial state.  The
post-loop steps of `_run_detection_gate` (waypoint summary emission and the
no-violation webview and TTS) publish no violation-action commands and are
outside this model. -/
def runGate (env : Nat → Nat) (action : String) (wp : WaypointCfg)
    (st : GateSettings) (pubOk : Bool) (timeoutTicks : Nat) (nvTicks : Int)
    (fuel : Nat) : GateSt :=
  gateLoop env action wp st pubOk timeoutTicks nvTicks fuel 0 initGateSt

/-- Invariant of the detection-gate polling loop at tick `tick`: either no
violation has been observed yet (no commands, no action taken, all earlier
ticks violation-free), or the configured action publishes no commands at all
(so the command log stays empty), or the action was executed exactly once, at
the first violation tick `t`, and the command log is exactly the commands of
that single execution. -/
def gateInv (env : Nat → Nat) (action : String) (wp : WaypointCfg)
    (st : GateSettings) (pubOk : Bool) (tick : Nat) (g : GateSt) : Prop :=
  (g.cmds = [] ∧ g.actionTaken = none ∧ g.execTick = none
    ∧ ∀ u, u < tick → env u = 0)
  ∨ (g.cmds = [] ∧ (execViolationAction action wp st pubOk).2 = [])
  ∨ (∃ t, t < tick ∧ env t ≠ 0 ∧ (∀ u, u < t → env u = 0)
      ∧ g.execTick = some t
      ∧ g.actionTaken = (execViolationAction action wp st pubOk).1
      ∧ g.cmds = (execViolationAction action wp st pubOk).2.map
          (fun c => (t, c))
      ∧ (execViolationAction action wp st pubOk).2 ≠ [])

/-! ## Concrete scenario data used by the claim instances -/

/-- A debouncer window clustered around confidence 0.9 with sample standard
deviation exactly 0.02 (confidences 0.88, 0.9, 0.92), all inside the
debounce window at time 100. -/
def hist3 : List Obs :=
  [⟨100, 22 / 25, "v", 0⟩, ⟨100, 9 / 10, "v", 0⟩, ⟨100, 23 / 25, "v", 0⟩]

/-- A debouncer window of ten identical observations at confidence 0.9; an
eleventh observation at confidence 0.5 has z-score 10 / sqrt 11 > 3 against
this window and is rejected as an outlier. -/
def hist10 : List Obs := List.replicate 10 ⟨100, 9 / 10, "x", 0⟩

/-- A patrol manager in the Running state (as after a successful `start`),
used to instantiate the stop-idempotence claim. -/
def pmRunning : PM :=
  { initPM ⟨["a"], 1, "h"⟩ 2 "h" with state := PState.running }

/-! ## Theorems -/

/-- C2: with the default configuration (violation_threshold = 3), two
observations of confidence 0.9 inside the debounce window are each answered
with should_report = false (single observation, then insufficient count),
and a third similar observation is answered with should_report = true. -/
theorem claim2_threshold_of_three :
    (addViolationObservation defaultCfg [] 100 0 "v" (9 / 10) 100).1
      = (false, some DebounceReason.singleObservation)
    ∧ (addViolationObservation defaultCfg
        (addViolationObservation defaultCfg [] 100 0 "v" (9 / 10) 100).2
        101 0 "v" (9 / 10) 101).1
      = (false, some DebounceReason.insufficientCount)
    ∧ (addViolationObservation defaultCfg
        (addViolationObservation defaultCfg
          (addViolationObservation defaultCfg [] 100 0 "v" (9 / 10) 100).2
          101 0 "v" (9 / 10) 101).2
        102 0 "v" (9 / 10) 102).1 = (true, none) := by
  decide

/-- C3: the clamp stage always returns 0 ≤ violations ≤ people, maps the
raw pair (7, 3) to (3, 3), and clamps each negative raw input to 0. -/
theorem claim3_clamp :
    (∀ v p : ℤ, 0 ≤ (clampViolations v p).1
      ∧ (clampViolations v p).1 ≤ (clampViolations v p).2
      ∧ 0 ≤ (clampViolations v p).2)
    ∧ clampViolations 7 3 = (3, 3)
    ∧ (∀ v p : ℤ, v < 0 → (clampViolations v p).1 = 0)
    ∧ (∀ v p : ℤ, p < 0 → (clampViolations v p).2 = 0) := by
  refine ⟨?_, by decide, ?_, ?_⟩
  · intro v p
    simp only [clampViolations]
    split_ifs
    all_goals exact ⟨by omega, by omega⟩
  · intro v p hv
    simp only [clampViolations]
    split_ifs <;> omega
  · intro v p hp
    simp only [clampViolations]
    split_ifs <;> omega

/-- C3 witness: the clamp of the negative raw pair (-5, -2) is (0, 0). -/
theorem claim3_clamp_witness :
    ((-5 : ℤ) < 0 ∧ (clampViolations (-5) (-2)).1 = 0)
    ∧ ((-2 : ℤ) < 0 ∧ (clampViolations (-5) (-2)).2 = 0) :=
  ⟨⟨by decide, claim3_clamp.2.2.1 (-5) (-2) (by decide)⟩,
   ⟨by decide, claim3_clamp.2.2.2 (-5) (-2) (by decide)⟩⟩

/-- C8 counterexample: after a window clustered around confidence 0.9 with
standard deviation exactly 0.02, an observation of confidence 0.1 is indeed
rejected, but with the low-confidence reason of the minimum-confidence
filter, not with the outlier reason the claim states (0.1 is below the
default min_confidence_score 0.5, so the code returns before the z-score
test is ever reached). -/
theorem claim8_counterexample :
    sampleVariance (hist3.map Obs.confidence) = 1 / 2500
    ∧ (addViolationObservation defaultCfg hist3 100 0 "v" (1 / 10) 100).1
      = (false, some DebounceReason.lowConfidence)
    ∧ DebounceReason.lowConfidence ≠ DebounceReason.outlier := by
  decide

/-- C8 amended: the 0.1-confidence observation is rejected by the
minimum-confidence filter (should_report = false with the low-confidence
reason), is not appended to the window, and therefore does not affect the
reportable decision for later observations: a following 0.9 observation is
reported exactly as it would have been on the untouched window. -/
theorem claim8_amended :
    (addViolationObservation defaultCfg hist3 100 0 "v" (1 / 10) 100)
      = ((false, some DebounceReason.lowConfidence), hist3)
    ∧ (addViolationObservation defaultCfg
        (addViolationObservation defaultCfg hist3 100 0 "v" (1 / 10) 100).2
        100 0 "v" (9 / 10) 100).1 = (true, none)
    ∧ (addViolationObservation defaultCfg hist3 100 0 "v" (9 / 10) 100).1
      = (true, none) := by
  decide

/-- C1 counterexample: a one-waypoint route with waypoint_max_retries = 2 and
an arrival wait that never succeeds.  Exactly 3 goto commands are sent to the
waypoint and the reachability error event is emitted — but the run is not
aborted and the state is not set to Error: `_wait_for_waypoint_completion`
merely returns after emitting the error, the loop moves past the waypoint,
and the run even reaches natural completion (state Idle, completion event). -/
theorem claim1_counterexample :
    countGoto (startAndRun ⟨["wp1"], 1, "home"⟩ 2 "home"
      (fun _ => false) 3).pm.log "wp1" = 3
    ∧ Ev.errorEv failMsg ∈ (startAndRun ⟨["wp1"], 1, "home"⟩ 2 "home"
        (fun _ => false) 3).pm.log
    ∧ (startAndRun ⟨["wp1"], 1, "home"⟩ 2 "home"
        (fun _ => false) 3).pm.state ≠ PState.error
    ∧ Ev.complete ∈ (startAndRun ⟨["wp1"], 1, "home"⟩ 2 "home"
        (fun _ => false) 3).pm.log := by
  decide

/-- C1 amended: with waypoint_max_retries = 2 and no arrival event, exactly 3
goto commands to the waypoint are sent (one initial plus one per retry)
before the reachability error event is emitted; the error does not abort the
run and does not set the state to Error — the waypoint is skipped and the
run continues (here to natural completion: return goto, state Idle,
completion event).  The full event log of the run, in order: -/
theorem claim1_amended :
    (startAndRun ⟨["wp1"], 1, "home"⟩ 2 "home" (fun _ => false) 3).pm.log
      = [Ev.status PState.running 0 1 0,
         Ev.goto "wp1", Ev.status PState.waiting 0 1 1,
         Ev.goto "wp1", Ev.goto "wp1", Ev.errorEv failMsg,
         Ev.status PState.waiting 1 1 1,
         Ev.goto "home", Ev.complete]
    ∧ (startAndRun ⟨["wp1"], 1, "home"⟩ 2 "home"
        (fun _ => false) 3).pm.state = PState.idle := by
  decide

/-- C4 counterexample: on a one-waypoint route that arrives immediately, the
status update emitted after the last waypoint of the loop reports state
Waiting with waypoint index 1 = total 1, so the strict bound
index < total does not hold at every emitted status update. -/
theorem claim4_counterexample :
    Ev.status PState.waiting 1 1 1 ∈ (startAndRun ⟨["wp1"], 1, "home"⟩ 2
      "home" (fun _ => true) 2).pm.log
    ∧ ¬(1 < 1) := by
  decide

/-- C7: on a running (or paused, waiting, low-battery) patrol, the first
`stop` returns true, moves the state to Stopped and publishes exactly one
stop_movement command; the second `stop` returns false, changes nothing and
publishes no further command. -/
theorem claim7_stop_idempotent (pm : PM)
    (h : pm.state = PState.running ∨ pm.state = PState.paused ∨
      pm.state = PState.waiting ∨ pm.state = PState.lowBattery) :
    (PM.stop pm).1 = true
    ∧ (PM.stop pm).2.state = PState.stopped
    ∧ (PM.stop (PM.stop pm).2).1 = false
    ∧ (PM.stop (PM.stop pm).2).2 = (PM.stop pm).2
    ∧ countStopMovement (PM.stop pm).2.log = countStopMovement pm.log + 1 := by
  have hni : ¬(pm.state = PState.idle ∨ pm.state = PState.stopped) := by
    rcases h with h | h | h | h <;> simp [h]
  simp [PM.stop, emitStatus, hni, countStopMovement, List.countP_append]

/-- C7 witness: the two stops on a concrete running patrol manager. -/
theorem claim7_witness :
    (PM.stop pmRunning).1 = true
    ∧ (PM.stop pmRunning).2.state = PState.stopped
    ∧ (PM.stop (PM.stop pmRunning).2).1 = false
    ∧ (PM.stop (PM.stop pmRunning).2).2 = (PM.stop pmRunning).2
    ∧ countStopMovement (PM.stop pmRunning).2.log
      = countStopMovement pmRunning.log + 1 :=
  claim7_stop_idempotent pmRunning (Or.inl rfl)

/-- C9: starting a patrol on a route with no waypoints fails: the registry
call returns false and leaves the registry untouched (no active patrol is
recorded for the robot), and the constructed manager refuses the start with
the no-waypoints error, stays Idle and spawns no run-loop thread. -/
theorem claim9_empty_route (reg : Registry) (robotId : Nat) (route : Route)
    (mr : Nat) (home : String) (hw : route.waypoints = [])
    (hmem : robotId ∉ reg.active) (hconn : reg.connected robotId = true) :
    startPatrol reg robotId route mr home
      = (false, reg, some (PM.start (initPM route mr home)).2)
    ∧ (PM.start (initPM route mr home)).1 = false
    ∧ (PM.start (initPM route mr home)).2.state = PState.idle
    ∧ (PM.start (initPM route mr home)).2.threadSpawned = false
    ∧ Ev.errorEv noWaypointsMsg ∈ (PM.start (initPM route mr home)).2.log
    ∧ robotId ∉ (startPatrol reg robotId route mr home).2.1.active := by
  simp [startPatrol, PM.start, initPM, hw, hmem, hconn]

/-- C9 witness: the empty route on a concrete registry with robot 1
connected and no active patrol. -/
theorem claim9_witness :
    startPatrol ⟨[], fun _ => true⟩ 1 ⟨[], 1, ""⟩ 2 "h"
      = (false, ⟨[], fun _ => true⟩,
          some (PM.start (initPM ⟨[], 1, ""⟩ 2 "h")).2)
    ∧ (PM.start (initPM ⟨[], 1, ""⟩ 2 "h")).1 = false
    ∧ (PM.start (initPM ⟨[], 1, ""⟩ 2 "h")).2.state = PState.idle
    ∧ (PM.start (initPM ⟨[], 1, ""⟩ 2 "h")).2.threadSpawned = false
    ∧ Ev.errorEv noWaypointsMsg ∈ (PM.start (initPM ⟨[], 1, ""⟩ 2 "h")).2.log
    ∧ 1 ∉ (startPatrol ⟨[], fun _ => true⟩ 1 ⟨[], 1, ""⟩ 2 "h").2.1.active :=
  claim9_empty_route ⟨[], fun _ => true⟩ 1 ⟨[], 1, ""⟩ 2 "h" rfl
    (by simp) rfl

/-- A nonempty suffix of `l ++ [a]` contains `a`. -/
theorem mem_of_suffix_concat {α : Type} {l₂ l : List α} {a : α}
    (h : l₂ <:+ l ++ [a]) (hne : l₂ ≠ []) : a ∈ l₂ := by
  obtain ⟨t, ht⟩ := h
  rcases List.eq_nil_or_concat' l₂ with h0 | ⟨l₂', b, rfl⟩
  · exact absurd h0 hne
  · have hconc : (t ++ l₂') ++ [b] = l ++ [a] := by
      simpa [List.append_assoc] using ht
    have hb : b = a := by
      have h2 := congrArg List.getLast? hconc
      simpa [List.getLast?_concat] using h2
    subst hb
    simp

/-- C10: in `add_violation_observation`, an observation below the minimum
confidence threshold is never appended (the window is returned unchanged),
while an observation that passes the filter is appended before the outlier
test runs — in particular an observation rejected as an outlier is
nevertheless in the returned window, so it still counts toward the violation
threshold, mean and standard deviation seen by subsequent observations. -/
theorem claim10_append_before_outlier (cfg : DebCfg) (hist : List Obs)
    (now : ℚ) (wi : Nat) (vt : String) (c ts : ℚ) :
    (c < cfg.minConfidenceScore →
      (addViolationObservation cfg hist now wi vt c ts).2 = hist)
    ∧ ((addViolationObservation cfg hist now wi vt c ts).1.2
          = some DebounceReason.outlier →
        (⟨ts, c, vt, wi⟩ : Obs)
          ∈ (addViolationObservation cfg hist now wi vt c ts).2) := by
  constructor
  · intro h
    simp [addViolationObservation, h]
  · intro h
    by_cases hc : c < cfg.minConfidenceScore
    · simp [addViolationObservation, hc] at h
    · simp only [addViolationObservation, hc, if_false] at h ⊢
      split_ifs at h ⊢ with h0 h1 h2
      · simp at h
      · simp at h
      · dsimp only at h ⊢
        refine mem_of_suffix_concat (List.dropWhile_suffix _) ?_
        intro hnil
        exact h0 (by rw [hnil]; rfl)
      · simp at h

/-- C10 witness: against a window of ten observations at confidence 0.9, an
eleventh observation at confidence 0.5 (at the minimum threshold, so it
passes the filter) is rejected as an outlier, and it is nevertheless
retained in the returned window. -/
theorem claim10_witness :
    (⟨100, 1 / 2, "x", 0⟩ : Obs)
      ∈ (addViolationObservation defaultCfg hist10 100 0 "x"
          (1 / 2) 100).2 :=
  (claim10_append_before_outlier defaultCfg hist10 100 0 "x"
    (1 / 2) 100).2 (by decide)

/-- Every event appended by the arrival wait is a resent goto or the
reachability error event. -/
theorem waitAttempts_events (env : Nat → Bool) (nm : String) :
    ∀ r att, ∀ e ∈ (waitAttempts env nm r att).1,
      e = Ev.goto nm ∨ e = Ev.errorEv failMsg := by
  intro r
  induction r with
  | zero =>
    intro att e he
    by_cases h : env att <;> simp [waitAttempts, h] at he
    exact Or.inr he
  | succ n ih =>
    intro att e he
    by_cases h : env att <;> simp [waitAttempts, h] at he
    rcases he with he | he
    · exact Or.inl he
    · exact ih (att + 1) e he

/-- The events of the arrival wait all satisfy any predicate that holds on
goto commands and on the reachability error event. -/
theorem waitAttempts_all (env : Nat → Bool) (nm : String) (p : Ev → Bool)
    (hg : ∀ s, p (Ev.goto s) = true) (he : p (Ev.errorEv failMsg) = true)
    (r att : Nat) : ((waitAttempts env nm r att).1).all p = true := by
  rw [List.all_eq_true]
  intro e hee
  rcases waitAttempts_events env nm r att e hee with h | h <;> simp [h, hg, he]

/-- The waypoint body preserves the waypoint index, the route data and the
loop bookkeeping, always leaves the state Waiting, and does not request a
stop unless a low-battery return was pending. -/
theorem waypointStep_fields (env : Nat → Bool) (pm : PM) :
    (waypointStep env pm).currentWaypointIndex = pm.currentWaypointIndex
    ∧ (waypointStep env pm).totalWaypoints = pm.totalWaypoints
    ∧ (waypointStep env pm).currentLoop = pm.currentLoop
    ∧ (waypointStep env pm).loopCount = pm.loopCount
    ∧ (waypointStep env pm).isInfiniteLoop = pm.isInfiniteLoop
    ∧ (waypointStep env pm).returnAfterCurrent = pm.returnAfterCurrent
    ∧ (waypointStep env pm).waypoints = pm.waypoints
    ∧ (waypointStep env pm).maxRetries = pm.maxRetries
    ∧ (waypointStep env pm).returnLocation = pm.returnLocation
    ∧ (waypointStep env pm).state = PState.waiting
    ∧ (pm.returnAfterCurrent = false →
        (waypointStep env pm).stopRequested = pm.stopRequested) := by
  simp only [waypointStep, emitStatus, returnToLocation]
  split_ifs <;> simp_all

/-- The waypoint body preserves any event-log predicate that holds on goto
commands, on the reachability error event and on the status update it
emits. -/
theorem waypointStep_log_all (env : Nat → Bool) (pm : PM) (p : Ev → Bool)
    (hg : ∀ s, p (Ev.goto s) = true) (he : p (Ev.errorEv failMsg) = true)
    (hs : p (Ev.status PState.waiting pm.currentWaypointIndex
        pm.totalWaypoints pm.currentLoop) = true)
    (hlog : pm.log.all p = true) :
    (waypointStep env pm).log.all p = true := by
  have hwa := waitAttempts_all env
    (pm.waypoints.getD pm.currentWaypointIndex "") p hg he
    pm.maxRetries pm.attempt
  simp only [waypointStep, emitStatus, returnToLocation]
  split_ifs <;> simp_all [List.all_append]

/-- The inner waypoint loop preserves the route data, the loop bookkeeping
and the low-battery flag, keeps the state in Running/Waiting, and requests
no stop unless a low-battery return was pending. -/
theorem innerLoop_fields (env : Nat → Bool) :
    ∀ fuel pm,
    (innerLoop env fuel pm).totalWaypoints = pm.totalWaypoints
    ∧ (innerLoop env fuel pm).isInfiniteLoop = pm.isInfiniteLoop
    ∧ (innerLoop env fuel pm).loopCount = pm.loopCount
    ∧ (innerLoop env fuel pm).returnAfterCurrent = pm.returnAfterCurrent
    ∧ (innerLoop env fuel pm).returnLocation = pm.returnLocation
    ∧ (pm.returnAfterCurrent = false →
        (innerLoop env fuel pm).stopRequested = pm.stopRequested)
    ∧ ((pm.state = PState.running ∨ pm.state = PState.waiting) →
        ((innerLoop env fuel pm).state = PState.running ∨
          (innerLoop env fuel pm).state = PState.waiting)) := by
  intro fuel
  induction fuel with
  | zero => intro pm; simp [innerLoop]
  | succ n ih =>
    intro pm
    simp only [innerLoop]
    split_ifs with hcond
    · obtain ⟨f1, f2, f3, f4, f5, f6, f7, f8, f9, f10, f11⟩ :=
        waypointStep_fields env pm
      have hstep := ih (emitStatus
        { waypointStep env pm with
          currentWaypointIndex := (waypointStep env pm).currentWaypointIndex
            + 1 })
      refine ⟨?_, ?_, ?_, ?_, ?_, ?_, ?_⟩
      all_goals simp_all [emitStatus]
    · simp

/-- The inner waypoint loop keeps the waypoint index at most the waypoint
total and preserves any event-log predicate that holds on goto commands, on
the reachability error event and on in-bound status updates. -/
theorem innerLoop_all (env : Nat → Bool) (p : Ev → Bool)
    (hg : ∀ s, p (Ev.goto s) = true) (he : p (Ev.errorEv failMsg) = true)
    (hs : ∀ st i t l, i ≤ t → p (Ev.status st i t l) = true) :
    ∀ fuel pm, pm.currentWaypointIndex ≤ pm.totalWaypoints →
      pm.log.all p = true →
      (innerLoop env fuel pm).log.all p = true
      ∧ (innerLoop env fuel pm).currentWaypointIndex
          ≤ (innerLoop env fuel pm).totalWaypoints := by
  intro fuel
  induction fuel with
  | zero => intro pm hle hlog; exact ⟨hlog, hle⟩
  | succ n ih =>
    intro pm hle hlog
    simp only [innerLoop]
    split_ifs with hcond
    · obtain ⟨f1, f2, f3, f4, f5, f6, f7, f8, f9, f10, f11⟩ :=
        waypointStep_fields env pm
      have hlt : pm.currentWaypointIndex < pm.totalWaypoints := hcond.2
      have hstep_log : (waypointStep env pm).log.all p = true :=
        waypointStep_log_all env pm p hg he
          (hs _ _ _ _ (Nat.le_of_lt hlt)) hlog
      refine ih _ ?_ ?_
      · simp only [emitStatus]
        simp [f1, f2]
        omega
      · simp only [emitStatus, List.all_append]
        simp [hstep_log, f1, f2]
        exact hs _ _ _ _ (by omega)
    · exact ⟨hlog, hle⟩

/-- The outer loop preserves any event-log predicate that holds on goto
commands, on the reachability error event and on in-bound status updates. -/
theorem outerLoop_all (env : Nat → Bool) (p : Ev → Bool)
    (hg : ∀ s, p (Ev.goto s) = true) (he : p (Ev.errorEv failMsg) = true)
    (hs : ∀ st i t l, i ≤ t → p (Ev.status st i t l) = true) :
    ∀ fuel keep pm, pm.log.all p = true →
      ((outerLoop env fuel keep pm).2).log.all p = true := by
  intro fuel
  induction fuel with
  | zero => intro keep pm hlog; exact hlog
  | succ n ih =>
    intro keep pm hlog
    simp only [outerLoop]
    split_ifs with hcond hstop
    · have h1 := innerLoop_all env p hg he hs pm.totalWaypoints
        { pm with currentWaypointIndex := 0 } (by simp) (by simpa using hlog)
      exact ih _ _ (by simpa using h1.1)
    · have h1 := innerLoop_all env p hg he hs pm.totalWaypoints
        { pm with currentWaypointIndex := 0 } (by simp) (by simpa using hlog)
      exact ih _ _ h1.1
    · exact hlog

/-- The outer loop preserves the infinite-loop flag and the low-battery
return flag, requests no stop unless a low-battery return was pending, and
keeps the state in Running/Waiting. -/
theorem outerLoop_fields (env : Nat → Bool) :
    ∀ fuel keep pm,
    (outerLoop env fuel keep pm).2.isInfiniteLoop = pm.isInfiniteLoop
    ∧ (outerLoop env fuel keep pm).2.returnAfterCurrent = pm.returnAfterCurrent
    ∧ (pm.returnAfterCurrent = false →
        (outerLoop env fuel keep pm).2.stopRequested = pm.stopRequested)
    ∧ ((pm.state = PState.running ∨ pm.state = PState.waiting) →
        ((outerLoop env fuel keep pm).2.state = PState.running ∨
          (outerLoop env fuel keep pm).2.state = PState.waiting)) := by
  intro fuel
  induction fuel with
  | zero => intro keep pm; simp [outerLoop]
  | succ n ih =>
    intro keep pm
    simp only [outerLoop]
    split_ifs with hcond hstop
    · obtain ⟨g1, g2, g3, g4, g5, g6, g7⟩ := innerLoop_fields env
        pm.totalWaypoints { pm with currentWaypointIndex := 0 }
      have hrec := ih (((innerLoop env pm.totalWaypoints
        { pm with currentWaypointIndex := 0 }).isInfiniteLoop) ||
          decide (((innerLoop env pm.totalWaypoints
            { pm with currentWaypointIndex := 0 }).currentLoop + 1 : Int)
            ≤ (innerLoop env pm.totalWaypoints
              { pm with currentWaypointIndex := 0 }).loopCount))
        { innerLoop env pm.totalWaypoints
            { pm with currentWaypointIndex := 0 } with
          currentLoop := (innerLoop env pm.totalWaypoints
            { pm with currentWaypointIndex := 0 }).currentLoop + 1 }
      refine ⟨?_, ?_, ?_, ?_⟩
      all_goals simp_all
    · obtain ⟨g1, g2, g3, g4, g5, g6, g7⟩ := innerLoop_fields env
        pm.totalWaypoints { pm with currentWaypointIndex := 0 }
      have hrec := ih keep (innerLoop env pm.totalWaypoints
        { pm with currentWaypointIndex := 0 })
      refine ⟨?_, ?_, ?_, ?_⟩
      all_goals simp_all
    · simp

/-- With the infinite-loop flag set and no stop or low-battery return
pending, the outer loop never exits by its own condition: it only ever runs
out of fuel. -/
theorem outerLoop_infinite (env : Nat → Bool) :
    ∀ fuel pm, pm.isInfiniteLoop = true → pm.stopRequested = false →
      pm.returnAfterCurrent = false →
      (outerLoop env fuel true pm).1 = false := by
  intro fuel
  induction fuel with
  | zero => intro pm _ _ _; rfl
  | succ n ih =>
    intro pm hinf hstop hraf
    simp only [outerLoop]
    obtain ⟨g1, g2, g3, g4, g5, g6, g7⟩ := innerLoop_fields env
      pm.totalWaypoints { pm with currentWaypointIndex := 0 }
    have hstop1 : (innerLoop env pm.totalWaypoints
        { pm with currentWaypointIndex := 0 }).stopRequested = false := by
      simp_all
    have hinf1 : (innerLoop env pm.totalWaypoints
        { pm with currentWaypointIndex := 0 }).isInfiniteLoop = true := by
      simp_all
    have hraf1 : (innerLoop env pm.totalWaypoints
        { pm with currentWaypointIndex := 0 }).returnAfterCurrent = false := by
      simp_all
    rw [if_pos ⟨by trivial, hstop⟩, if_pos hstop1]
    have hkeep : ((innerLoop env pm.totalWaypoints
        { pm with currentWaypointIndex := 0 }).isInfiniteLoop ||
          decide ((((innerLoop env pm.totalWaypoints
            { pm with currentWaypointIndex := 0 }).currentLoop + 1 : Nat) :
              Int) ≤ (innerLoop env pm.totalWaypoints
                { pm with currentWaypointIndex := 0 }).loopCount)) = true := by
      simp [hinf1]
    rw [hkeep]
    exact ih _ (by simpa using hinf1) (by simpa using hstop1)
      (by simpa using hraf1)

/-- `start` preserves any event-log predicate that holds on the no-waypoints
error event and on in-bound status updates. -/
theorem start_log_all (p : Ev → Bool)
    (he0 : p (Ev.errorEv noWaypointsMsg) = true)
    (hs : ∀ st i t l, i ≤ t → p (Ev.status st i t l) = true) (pm : PM)
    (hlog : pm.log.all p = true) : (PM.start pm).2.log.all p = true := by
  simp only [PM.start, emitStatus]
  split_ifs <;> simp_all [List.all_append]

/-- The whole patrol loop (including the completion steps) preserves any
event-log predicate that holds on goto commands, on the reachability error
event, on in-bound status updates and on the completion event. -/
theorem patrolLoop_all (env : Nat → Bool) (p : Ev → Bool)
    (hg : ∀ s, p (Ev.goto s) = true) (he : p (Ev.errorEv failMsg) = true)
    (hs : ∀ st i t l, i ≤ t → p (Ev.status st i t l) = true)
    (hcomp : p Ev.complete = true) (fuel : Nat) (pm : PM)
    (hlog : pm.log.all p = true) :
    ((patrolLoop env fuel pm).2).log.all p = true := by
  have h1 := outerLoop_all env p hg he hs fuel true
    { pm with currentLoop := 1 } (by simpa using hlog)
  simp only [patrolLoop, returnToLocation]
  split_ifs <;> simp_all [List.all_append]

/-- C4 amended: every status update emitted by `start` and by the patrol run
loop with state Running or Waiting reports a waypoint index of at most the
waypoint total.  (The strict bound of the claim fails at the update emitted
after the last waypoint of a loop, where the index equals the total — see
the counterexample.) -/
theorem claim4_amended (route : Route) (mr : Nat) (home : String)
    (env : Nat → Bool) (fuel : Nat) :
    ((startAndRun route mr home env fuel).pm.log).all statusWithinBounds
      = true := by
  have hg : ∀ s, statusWithinBounds (Ev.goto s) = true := fun s => rfl
  have he : statusWithinBounds (Ev.errorEv failMsg) = true := rfl
  have he0 : statusWithinBounds (Ev.errorEv noWaypointsMsg) = true := rfl
  have hcomp : statusWithinBounds Ev.complete = true := rfl
  have hs : ∀ st i t l, i ≤ t →
      statusWithinBounds (Ev.status st i t l) = true := by
    intro st i t l hle
    simp only [statusWithinBounds]
    split_ifs <;> simpa using hle
  have hstart : (PM.start (initPM route mr home)).2.log.all
      statusWithinBounds = true :=
    start_log_all statusWithinBounds he0 hs _ (by simp [initPM])
  simp only [startAndRun]
  split_ifs with hok
  · exact patrolLoop_all env statusWithinBounds hg he hs hcomp fuel _ hstart
  · exact hstart

/-- C5: on a route with loop count at most 0 and at least one waypoint, the
run loop never self-terminates: for every environment and every fuel bound
the loop is still running when the fuel runs out, no completion event is
ever emitted, and the orchestrator never returns to Idle.  (Only an external
`stop` — or an unexpected exception — can end such a run.) -/
theorem claim5_infinite_loop_never_completes (route : Route) (mr : Nat)
    (home : String) (env : Nat → Bool) (fuel : Nat)
    (hloop : route.loopCount ≤ 0) (hw : route.waypoints ≠ []) :
    (startAndRun route mr home env fuel).started = true
    ∧ (startAndRun route mr home env fuel).finished = false
    ∧ Ev.complete ∉ (startAndRun route mr home env fuel).pm.log
    ∧ (startAndRun route mr home env fuel).pm.state ≠ PState.idle := by
  have hok : (PM.start (initPM route mr home)).1 = true := by
    simp [PM.start, initPM, List.length_eq_zero, hw]
  have hstate : (PM.start (initPM route mr home)).2.state
      = PState.running := by
    simp [PM.start, initPM, emitStatus, List.length_eq_zero, hw]
  have hstop : (PM.start (initPM route mr home)).2.stopRequested = false := by
    simp [PM.start, initPM, emitStatus, List.length_eq_zero, hw]
  have hraf : (PM.start (initPM route mr home)).2.returnAfterCurrent
      = false := by
    simp [PM.start, initPM, emitStatus, List.length_eq_zero, hw]
  have hinf : (PM.start (initPM route mr home)).2.isInfiniteLoop = true := by
    simp [PM.start, initPM, emitStatus, List.length_eq_zero, hw, hloop]
  set pmS := (PM.start (initPM route mr home)).2 with hpmS
  have hofin := outerLoop_infinite env fuel { pmS with currentLoop := 1 }
    (by simpa using hinf) (by simpa using hstop) (by simpa using hraf)
  obtain ⟨o1, o2, o3, o4⟩ := outerLoop_fields env fuel true
    { pmS with currentLoop := 1 }
  have hostate := o4 (by simp [hstate])
  have hploop : patrolLoop env fuel pmS
      = outerLoop env fuel true { pmS with currentLoop := 1 } := by
    simp only [patrolLoop]
    rw [if_neg]
    intro hcontra
    rw [hofin] at hcontra
    exact Bool.false_ne_true hcontra.1
  have hpnc : ∀ e : Ev, e ∈ (outerLoop env fuel true
      { pmS with currentLoop := 1 }).2.log → e ≠ Ev.complete := by
    have hlogS : pmS.log.all (fun e => !(decide (e = Ev.complete)))
        = true := by
      simp [hpmS, PM.start, initPM, emitStatus, List.length_eq_zero, hw]
    have hall := outerLoop_all env (fun e => !(decide (e = Ev.complete)))
      (fun _ => rfl) rfl (fun _ _ _ _ _ => rfl) fuel true
      { pmS with currentLoop := 1 } (by simpa using hlogS)
    intro e he hecomp
    have := (List.all_eq_true.mp hall) e he
    subst hecomp
    simp at this
  simp only [startAndRun, hok, if_pos, hploop]
  refine ⟨by trivial, ?_, ?_, ?_⟩
  · simpa using hofin
  · intro hmem
    exact hpnc Ev.complete (by simpa using hmem) rfl
  · intro hidle
    rcases hostate with h | h <;> simp_all

/-- C5 witness: a two-waypoint route with loop count 0 under an environment
in which every arrival succeeds, run with fuel for several complete loops:
the run is still going, no completion was emitted, the state is not Idle. -/
theorem claim5_witness :
    (startAndRun ⟨["a", "b"], 0, "h"⟩ 1 "h" (fun _ => true) 7).started = true
    ∧ (startAndRun ⟨["a", "b"], 0, "h"⟩ 1 "h"
        (fun _ => true) 7).finished = false
    ∧ Ev.complete ∉ (startAndRun ⟨["a", "b"], 0, "h"⟩ 1 "h"
        (fun _ => true) 7).pm.log
    ∧ (startAndRun ⟨["a", "b"], 0, "h"⟩ 1 "h"
        (fun _ => true) 7).pm.state ≠ PState.idle :=
  claim5_infinite_loop_never_completes ⟨["a", "b"], 0, "h"⟩ 1 "h"
    (fun _ => true) 7 (by decide) (by simp)

/-- A violation-action call that returns the Python `None` result is one of
the no-op paths and publishes no command. -/
theorem execViolationAction_cmds_of_none (action : String) (wp : WaypointCfg)
    (st : GateSettings) (pubOk : Bool)
    (h : (execViolationAction action wp st pubOk).1 = none) :
    (execViolationAction action wp st pubOk).2 = [] := by
  simp only [execViolationAction] at h ⊢
  split_ifs at h ⊢ <;> simp_all

/-- One gate iteration preserves the gate invariant. -/
theorem gateIter_inv (env : Nat → Nat) (action : String) (wp : WaypointCfg)
    (st : GateSettings) (pubOk : Bool) (timeoutTicks : Nat) (nvTicks : Int)
    (tick : Nat) (g : GateSt)
    (h : gateInv env action wp st pubOk tick g) :
    gateInv env action wp st pubOk (tick + 1)
      (gateIter env action wp st pubOk timeoutTicks nvTicks tick g).1 := by
  rcases h with ⟨hc, ha, he, hu⟩ | ⟨hc, hnil⟩ |
    ⟨t, ht, hv, hu, he, ha, hc, hnil⟩
  · by_cases hvt : 0 < env tick
    · simp only [gateIter, if_pos hvt]
      by_cases hr2 : (execViolationAction action wp st pubOk).2 = []
      · right; left
        simp [ha, hr2, hc]
      · right; right
        refine ⟨tick, by omega, by omega, hu, ?_, ?_, ?_, hr2⟩ <;>
          simp [ha, hr2, hc]
    · simp only [gateIter, if_neg hvt]
      have hz : env tick = 0 := by omega
      split_ifs <;>
        · left
          refine ⟨hc, ha, he, ?_⟩
          intro u hu2
          rcases Nat.lt_succ_iff_lt_or_eq.mp hu2 with h2 | h2
          · exact hu u h2
          · subst h2; exact hz
  · by_cases hvt : 0 < env tick
    · simp only [gateIter, if_pos hvt]
      by_cases ha : g.actionTaken = none
      · right; left
        simp [ha, hnil, hc]
      · right; left
        simp [ha, hnil, hc]
    · simp only [gateIter, if_neg hvt]
      split_ifs <;> exact Or.inr (Or.inl ⟨by simpa using hc, hnil⟩)
  · have hra : (execViolationAction action wp st pubOk).1 ≠ none := by
      intro hn
      exact hnil (execViolationAction_cmds_of_none action wp st pubOk hn)
    by_cases hvt : 0 < env tick
    · simp only [gateIter, if_pos hvt]
      have hga : ¬((g.actionTaken : Option String) = none) := by
        rw [ha]; exact hra
      right; right
      refine ⟨t, by omega, hv, hu, ?_, ?_, ?_, hnil⟩ <;>
        simp [hga, he, ha, hc, hra]
    · simp only [gateIter, if_neg hvt]
      split_ifs <;>
        · right; right
          exact ⟨t, by omega, hv, hu, by simpa using he, by simpa using ha,
            by simpa using hc, hnil⟩

/-- The gate polling loop preserves the gate invariant up to some tick. -/
theorem gateLoop_inv (env : Nat → Nat) (action : String) (wp : WaypointCfg)
    (st : GateSettings) (pubOk : Bool) (timeoutTicks : Nat) (nvTicks : Int) :
    ∀ fuel tick g, gateInv env action wp st pubOk tick g →
      ∃ tick2, gateInv env action wp st pubOk tick2
        (gateLoop env action wp st pubOk timeoutTicks nvTicks fuel tick g) := by
  intro fuel
  induction fuel with
  | zero => intro tick g h; exact ⟨tick, h⟩
  | succ n ih =>
    intro tick g h
    simp only [gateLoop]
    split_ifs
    · exact ih (tick + 1) _
        (gateIter_inv env action wp st pubOk timeoutTicks nvTicks tick g h)
    · exact ⟨tick + 1,
        gateIter_inv env action wp st pubOk timeoutTicks nvTicks tick g h⟩

/-- C6: within one detection-gate invocation the configured violation
response action is executed at most once: either no violation-action command
is ever published, or all published violation-action commands come from one
single execution, performed at the first polled tick with a nonzero
violation count (all earlier ticks were violation-free); violations observed
later in the same invocation never execute the action again. -/
theorem claim6_violation_action_at_most_once (env : Nat → Nat)
    (action : String) (wp : WaypointCfg) (st : GateSettings) (pubOk : Bool)
    (timeoutTicks : Nat) (nvTicks : Int) (fuel : Nat) :
    (runGate env action wp st pubOk timeoutTicks nvTicks fuel).cmds = []
    ∨ ∃ t, env t ≠ 0 ∧ (∀ u, u < t → env u = 0)
        ∧ (runGate env action wp st pubOk timeoutTicks nvTicks
            fuel).execTick = some t
        ∧ (runGate env action wp st pubOk timeoutTicks nvTicks fuel).cmds
          = (execViolationAction action wp st pubOk).2.map
              (fun c => (t, c)) := by
  obtain ⟨tick2, hinv⟩ := gateLoop_inv env action wp st pubOk timeoutTicks
    nvTicks fuel 0 initGateSt
    (Or.inl ⟨rfl, rfl, rfl, by omega⟩)
  rcases hinv with ⟨hc, _⟩ | ⟨hc, _⟩ | ⟨t, _, hv, hu, he, _, hc, _⟩
  · exact Or.inl hc
  · exact Or.inl hc
  · exact Or.inr ⟨t, hv, hu, he, hc⟩

/-- C4 witness: the bound instantiated on a concrete one-waypoint run. -/
theorem claim4_witness :
    ((startAndRun ⟨["wp1"], 1, "home"⟩ 2 "home"
      (fun _ => true) 2).pm.log).all statusWithinBounds = true :=
  claim4_amended ⟨["wp1"], 1, "home"⟩ 2 "home" (fun _ => true) 2

/-- C6 witness: the at-most-once property instantiated on a concrete gate
run (TTS action, violations appearing from tick 2 on). -/
theorem claim6_witness :
    (runGate (fun t => if 2 ≤ t then 1 else 0) "tts" ⟨"", "", 0⟩
        ⟨"d", "", "", 0⟩ true 10 4 20).cmds = []
    ∨ ∃ t, (if 2 ≤ t then 1 else 0) ≠ 0
        ∧ (∀ u, u < t → (if 2 ≤ u then 1 else 0) = 0)
        ∧ (runGate (fun t => if 2 ≤ t then 1 else 0) "tts" ⟨"", "", 0⟩
            ⟨"d", "", "", 0⟩ true 10 4 20).execTick = some t
        ∧ (runGate (fun t => if 2 ≤ t then 1 else 0) "tts" ⟨"", "", 0⟩
            ⟨"d", "", "", 0⟩ true 10 4 20).cmds
          = (execViolationAction "tts" ⟨"", "", 0⟩
              ⟨"d", "", "", 0⟩ true).2.map (fun c => (t, c)) :=
  claim6_violation_action_at_most_once (fun t => if 2 ≤ t then 1 else 0)
    "tts" ⟨"", "", 0⟩ ⟨"d", "", "", 0⟩ true 10 4 20

end Temi
